import Mathlib

/-!
Shallow embedding of the intelligent retrieval coordinator in
`src/tools/intelligent_retrieval.py` (functions `analyze_query_intent`,
`intelligent_retrieve`, `auto_rag_workflow`).

Modelling conventions:
* Python `re.search(r"\b(p1|p2|...)\b", s)` with lowercase literal alternatives
  is modelled by `matchAlt`: some alternative occurs as a substring of `s`
  with a word boundary on both sides.  Every alternative in the source starts
  and ends with a letter, so the boundary condition is: the character before
  (resp. after) the occurrence is absent or is not a word character.
  The word-character class is modelled as ASCII `[A-Za-z0-9_]` (Python's
  `\w` restricted to ASCII; the difference only affects boundaries adjacent
  to non-ASCII letters, which no claim exercises).
* `str.lower()` is modelled on ASCII letters (`pyLower`).
* `str.split()` (no argument) splits on runs of whitespace and discards empty
  tokens (`pyWordCount` counts them).
* `s[-200:]` is modelled by `pyTakeRight 200`.
* Python dicts holding results are modelled as structures / an inductive
  tagged by the `decision` field.
-/

/-- ASCII word character, Python `\w` restricted to ASCII. -/
def isWordChar (c : Char) : Bool :=
  (('a' ≤ c && c ≤ 'z') || ('A' ≤ c && c ≤ 'Z') || ('0' ≤ c && c ≤ '9') || c == '_')

/-- ASCII lower-casing of one character (Python `str.lower` on ASCII). -/
def charLower (c : Char) : Char :=
  if 'A' ≤ c && c ≤ 'Z' then Char.ofNat (c.toNat + 32) else c

/-- ASCII lower-casing of a string (`query.lower()` in the source). -/
def pyLower (s : String) : String :=
  String.mk (s.data.map charLower)

/-- Does `p` occur at the head of `l`, with a word boundary after it?
(The character following the occurrence is absent or not a word character.) -/
def matchesHere (p : List Char) (l : List Char) : Bool :=
  match p, l with
  | [], [] => true
  | [], c :: _ => !isWordChar c
  | _ :: _, [] => false
  | c :: p, d :: l => c == d && matchesHere p l

/-- Scan `l` for an occurrence of `p` preceded by a word boundary (`prev` is
the character just before the current position, `none` at the start). -/
def scanMatch (p : List Char) (prev : Option Char) (l : List Char) : Bool :=
  ((match prev with | none => true | some c => !isWordChar c) && matchesHere p l) ||
  (match l with
   | [] => false
   | c :: l => scanMatch p (some c) l)

/-- `re.search(r"\b<phrase>\b", s)`: `phrase` occurs in `s` surrounded by word
boundaries.  All phrases used by the source start and end with a letter. -/
def phraseFound (phrase : String) (s : String) : Bool :=
  scanMatch phrase.data none s.data

/-- One source regex `\b(p1|p2|...)\b`: some alternative is found. -/
def matchAlt (alts : List String) (s : String) : Bool :=
  alts.any (fun p => phraseFound p s)

/-- `any(re.search(pattern, s) for pattern in patterns)` over a pattern list. -/
def matchGroups (groups : List (List String)) (s : String) : Bool :=
  groups.any (fun g => matchAlt g s)

/-- `KNOWLEDGE_PATTERNS` (source lines 20–25), one list per regex. -/
def KNOWLEDGE_PATTERNS : List (List String) :=
  [["what is", "what are", "tell me about", "explain", "describe"],
   ["how does", "how do", "how to", "how can"],
   ["why", "when", "where", "who"],
   ["definition of", "meaning of", "concept of"]]

/-- `RESEARCH_PATTERNS` (source lines 27–31). -/
def RESEARCH_PATTERNS : List (List String) :=
  [["find", "search", "lookup", "get information", "research"],
   ["show me", "give me", "provide", "fetch"],
   ["details about", "data on", "information on"]]

/-- `ANALYSIS_PATTERNS` (source lines 33–37). -/
def ANALYSIS_PATTERNS : List (List String) :=
  [["analyze", "compare", "review", "summarize", "evaluate"],
   ["differences between", "similarities between"],
   ["pros and cons", "advantages", "disadvantages"]]

/-- `EXAMPLE_PATTERNS` (source lines 39–42). -/
def EXAMPLE_PATTERNS : List (List String) :=
  [["example", "sample", "demonstration", "show example"],
   ["code example", "implementation example"]]

/-- The `"technical"` entry of `DOMAIN_PATTERNS` (source lines 46–50). -/
def TECHNICAL_PATTERNS : List (List String) :=
  [["api", "function", "class", "method", "algorithm", "code", "programming"],
   ["implementation", "framework", "library", "database", "server"],
   ["error", "bug", "debug", "test", "deployment"]]

/-- The `"business"` entry of `DOMAIN_PATTERNS` (source lines 51–54). -/
def BUSINESS_PATTERNS : List (List String) :=
  [["strategy", "market", "revenue", "cost", "profit", "customer"],
   ["business", "management", "operations", "sales", "marketing"]]

/-- The `"code"` entry of `DOMAIN_PATTERNS` (source lines 55–58). -/
def CODE_PATTERNS : List (List String) :=
  [["python", "javascript", "java", "react", "node", "sql", "html", "css"],
   ["function", "class", "variable", "loop", "condition", "import"]]

/-- `DOMAIN_PATTERNS` (source lines 45–59); the association list keeps the
dict's insertion order technical, business, code, which is the iteration
order of the `for domain_name, patterns in DOMAIN_PATTERNS.items()` loop. -/
def DOMAIN_PATTERNS : List (String × List (List String)) :=
  [("technical", TECHNICAL_PATTERNS),
   ("business", BUSINESS_PATTERNS),
   ("code", CODE_PATTERNS)]

/-- Count maximal runs of non-whitespace characters; `inTok` records whether
the previous character was part of a token. -/
def tokenCountAux (inTok : Bool) : List Char → Nat
  | [] => 0
  | c :: l =>
    if c.isWhitespace then tokenCountAux false l
    else (if inTok then 0 else 1) + tokenCountAux true l

/-- `len(query.split())`: number of maximal runs of non-whitespace. -/
def pyWordCount (s : String) : Nat :=
  tokenCountAux false s.data

/-- `s[-n:]`: the last `n` characters of `s` (all of `s` when it is shorter). -/
def pyTakeRight (n : Nat) (s : String) : String :=
  String.mk (s.data.drop (s.data.length - n))

/-- The `top_k` dict lookup `{"simple": 3, "medium": 5, "complex": 10}.get(complexity, 5)`
(source lines 96–100). -/
def topKFor (complexity : String) : Nat :=
  (([("simple", 3), ("medium", 5), ("complex", 10)] : List (String × Nat)).lookup
    complexity).getD 5

/-- The `namespace` dict lookup
`{"technical": "technical", "code": "code", "business": "business"}.get(domain, "")`
(source lines 102–106). -/
def namespaceFor (domain : String) : String :=
  (([("technical", "technical"), ("code", "code"), ("business", "business")] :
    List (String × String)).lookup domain).getD ""

/-- The nested `query_analysis` dict of the analysis (source lines 115–119). -/
structure QueryMetrics where
  word_count : Nat
  has_question_words : Bool
  is_specific : Bool
deriving DecidableEq, Repr

/-- The analysis dict returned by `analyze_query_intent` (source lines 108–120). -/
structure QueryAnalysis where
  needs_retrieval : Bool
  intent_type : String
  domain : String
  complexity : String
  suggested_top_k : Nat
  suggested_namespace : String
  query_analysis : QueryMetrics
deriving DecidableEq, Repr

/-- `analyze_query_intent` (source lines 61–120).  The sequential
`if/elif` mutation of `needs_retrieval`/`intent_type` is modelled by the
pair-valued conditional; the `for … break` loop over `DOMAIN_PATTERNS` by
`List.find?`; the `dict.get(key, default)` lookups by `List.lookup`/`getD`. -/
def analyze_query_intent (query : String) : QueryAnalysis :=
  let query_lower := pyLower query
  let intentPair : Bool × String :=
    if matchGroups KNOWLEDGE_PATTERNS query_lower then (true, "knowledge")
    else if matchGroups RESEARCH_PATTERNS query_lower then (true, "research")
    else if matchGroups ANALYSIS_PATTERNS query_lower then (true, "analysis")
    else if matchGroups EXAMPLE_PATTERNS query_lower then (true, "examples")
    else (false, "conversational")
  let domain : String :=
    match DOMAIN_PATTERNS.find? (fun dp => matchGroups dp.2 query_lower) with
    | some dp => dp.1
    | none => "general"
  let word_count := pyWordCount query
  let complexity : String :=
    if word_count ≤ 3 then "simple" else if word_count ≤ 8 then "medium" else "complex"
  let top_k : Nat := topKFor complexity
  let nspace : String := namespaceFor domain
  { needs_retrieval := intentPair.1
    intent_type := intentPair.2
    domain := domain
    complexity := complexity
    suggested_top_k := top_k
    suggested_namespace := nspace
    query_analysis :=
      { word_count := word_count
        has_question_words :=
          matchAlt ["what", "how", "why", "when", "where", "who"] query_lower
        is_specific :=
          matchAlt ["specific", "exactly", "precisely", "details"] query_lower } }

/-- The referential-pronoun regex of `intelligent_retrieve` (source line 148). -/
def REFERENTIAL_PRONOUNS : List String :=
  ["that", "it", "this", "they", "those"]

/-- The context-enhancement block of `intelligent_retrieve` (source lines
145–156): when a non-empty `conversation_context` is supplied and the lowered
query contains a referential pronoun as a whole word, force
`needs_retrieval = true` and `intent_type = "contextual_reference"` and
prepend the last 200 characters of the context (plus a space) to the query;
otherwise keep the analysis and the query unchanged.  Returns the (possibly
updated) analysis and the `enhanced_query`. -/
def contextFusion (query conversation_context : String) (analysis : QueryAnalysis) :
    QueryAnalysis × String :=
  if conversation_context ≠ "" then
    if matchAlt REFERENTIAL_PRONOUNS (pyLower query) then
      ({ analysis with needs_retrieval := true, intent_type := "contextual_reference" },
       pyTakeRight 200 conversation_context ++ " " ++ query)
    else (analysis, query)
  else (analysis, query)

/-- The `retrieval_params` dict built at source lines 185–190. -/
structure RetrievalParams where
  index_name : String
  «namespace» : String
  query : String
  top_k : Nat
deriving DecidableEq, Repr

/-- The dict returned by `intelligent_retrieve`, tagged by its `decision`
field: `no_retrieval_needed` (lines 160–166), `retrieval_triggered`
(lines 194–202), or `error` (lines 205–209).  The `success` field is `true`
on the first two and `false` on the last (see `RetrieveResult.success`). -/
inductive RetrieveResult where
  | noRetrievalNeeded (intent_analysis : QueryAnalysis) (message : String)
      (suggested_response : String)
  | retrievalTriggered (intent_analysis : QueryAnalysis)
      (retrieval_params : RetrievalParams) (enhanced_query : String)
      (message : String) (next_action : String)
  | error (error_message : String)
deriving DecidableEq, Repr

/-- The `success` field of the returned dict. -/
def RetrieveResult.success : RetrieveResult → Bool
  | .error _ => false
  | _ => true

/-- The `decision` field of the returned dict. -/
def RetrieveResult.decision : RetrieveResult → String
  | .noRetrievalNeeded _ _ _ => "no_retrieval_needed"
  | .retrievalTriggered _ _ _ _ _ => "retrieval_triggered"
  | .error _ => "error"

/-- The `retrieval_params` field of the returned dict, when present. -/
def RetrieveResult.retrieval_params? : RetrieveResult → Option RetrievalParams
  | .retrievalTriggered _ p _ _ _ => some p
  | _ => none

/-- The `enhanced_query` field of the returned dict, when present. -/
def RetrieveResult.enhanced_query? : RetrieveResult → Option String
  | .retrievalTriggered _ _ e _ _ => some e
  | _ => none

/-- The `intent_analysis` field of the returned dict, when present. -/
def RetrieveResult.intent_analysis? : RetrieveResult → Option QueryAnalysis
  | .noRetrievalNeeded a _ _ => some a
  | .retrievalTriggered a _ _ _ _ => some a
  | .error _ => none

/-- `intelligent_retrieve` (source lines 122–209).

The retrieval branch first performs a dynamic module load (lines 169–182:
`from .rag_tools.rag_retrical import rag_retrival` followed by
`importlib` loading of a hard-coded absolute file path) whose loaded module
is never used in the returned dict; its only observable effect on the result
is that a raised exception is caught by the surrounding `try/except` (lines
204–209) and normalized to the `error` record.  That environment-dependent
effect is modelled by the explicit `load_outcome` argument: `.ok ()` when the
load succeeds (it then contributes nothing to the result), `.error e` when it
raises an exception whose string rendering is `e`.  Everything else in the
body is pure and total, so no other exception site exists for string-typed
arguments. -/
def intelligent_retrieve (load_outcome : Except String Unit)
    (query : String) (index_name : String := "main-knowledge")
    (force_retrieval : Bool := false) (conversation_context : String := "") :
    RetrieveResult :=
  let analysis0 := analyze_query_intent query
  let fused := contextFusion query conversation_context analysis0
  let analysis := fused.1
  let enhanced_query := fused.2
  if !analysis.needs_retrieval && !force_retrieval then
    .noRetrievalNeeded analysis
      "Query detected as conversational - no retrieval needed" "direct_answer"
  else
    match load_outcome with
    | .error e => .error ("Intelligent retrieval failed: " ++ e)
    | .ok _ =>
      let retrieval_params : RetrievalParams :=
        { index_name := index_name
          «namespace» := analysis.suggested_namespace
          query := enhanced_query
          top_k := analysis.suggested_top_k }
      .retrievalTriggered analysis retrieval_params enhanced_query
        ("Automatic retrieval triggered for " ++ analysis.intent_type ++
          " query in " ++ analysis.domain ++ " domain")
        "call_pinecone_retrieve_with_params"

/-- The `retrieval_result` dict built by `auto_rag_workflow`
(source lines 239–249). -/
structure RetrievalDecision where
  intent_detected : String
  domain : String
  should_call_pinecone_retrieve : Bool
  parameters : RetrievalParams
deriving DecidableEq, Repr

/-- The dict returned by `auto_rag_workflow`, tagged by its `workflow_stage`
field: `retrieval_triggered` (lines 251–262) or `direct_response`
(lines 264–269).  Both branches carry `success: true`; the `except` clause
(lines 271–275) is unreachable for string-typed arguments because the body
(intent analysis and dict construction only — it performs no dynamic module
load) is total. -/
inductive WorkflowResult where
  | retrievalTriggered (retrieval_decision : RetrievalDecision)
      (message : String) (next_steps : List String)
  | directResponse (message : String)
deriving DecidableEq, Repr

/-- The `retrieval_decision.parameters` record of the workflow result, when
present. -/
def WorkflowResult.parameters? : WorkflowResult → Option RetrievalParams
  | .retrievalTriggered d _ _ => some d.parameters
  | .directResponse _ => none

/-- `auto_rag_workflow` (source lines 211–275).  Note that the body reads
neither `conversation_context` nor `user_preferences`, and its
`parameters.query` is the raw `query` (line 246), never an enhanced one. -/
def auto_rag_workflow (query : String) (index_name : String := "main-knowledge")
    (conversation_context : String := "")
    (user_preferences : Option (List (String × String)) := none) : WorkflowResult :=
  let analysis := analyze_query_intent query
  if analysis.needs_retrieval then
    .retrievalTriggered
      { intent_detected := analysis.intent_type
        domain := analysis.domain
        should_call_pinecone_retrieve := true
        parameters :=
          { index_name := index_name
            «namespace» := analysis.suggested_namespace
            query := query
            top_k := analysis.suggested_top_k } }
      ("Auto-triggered " ++ analysis.intent_type ++ " retrieval for domain: " ++
        analysis.domain)
      ["1. Call pinecone_retrieve with suggested parameters",
       "2. Process and rank results",
       "3. Generate contextual response",
       "4. Provide source citations"]
  else
    .directResponse
      "Query identified as conversational - responding directly without retrieval"

/-! Component equations for `analyze_query_intent`, read off the definition. -/

/-- The intent `if/elif` chain of source lines 66–83, as one equation. -/
theorem analyze_intent_type_eq (q : String) :
    (analyze_query_intent q).intent_type =
      (if matchGroups KNOWLEDGE_PATTERNS (pyLower q) then "knowledge"
       else if matchGroups RESEARCH_PATTERNS (pyLower q) then "research"
       else if matchGroups ANALYSIS_PATTERNS (pyLower q) then "analysis"
       else if matchGroups EXAMPLE_PATTERNS (pyLower q) then "examples"
       else "conversational") := by
  cases hk : matchGroups KNOWLEDGE_PATTERNS (pyLower q) <;>
    cases hr : matchGroups RESEARCH_PATTERNS (pyLower q) <;>
      cases ha : matchGroups ANALYSIS_PATTERNS (pyLower q) <;>
        cases he : matchGroups EXAMPLE_PATTERNS (pyLower q) <;>
          simp [analyze_query_intent, hk, hr, ha, he]

/-- `needs_retrieval` is set exactly when some intent family matched. -/
theorem analyze_needs_retrieval_eq (q : String) :
    (analyze_query_intent q).needs_retrieval =
      (matchGroups KNOWLEDGE_PATTERNS (pyLower q) ||
       matchGroups RESEARCH_PATTERNS (pyLower q) ||
       matchGroups ANALYSIS_PATTERNS (pyLower q) ||
       matchGroups EXAMPLE_PATTERNS (pyLower q)) := by
  cases hk : matchGroups KNOWLEDGE_PATTERNS (pyLower q) <;>
    cases hr : matchGroups RESEARCH_PATTERNS (pyLower q) <;>
      cases ha : matchGroups ANALYSIS_PATTERNS (pyLower q) <;>
        cases he : matchGroups EXAMPLE_PATTERNS (pyLower q) <;>
          simp [analyze_query_intent, hk, hr, ha, he]

/-- The domain `for … break` loop of source lines 86–90, as one equation:
first matching family in the order technical, business, code, else general. -/
theorem analyze_domain_eq (q : String) :
    (analyze_query_intent q).domain =
      (if matchGroups TECHNICAL_PATTERNS (pyLower q) then "technical"
       else if matchGroups BUSINESS_PATTERNS (pyLower q) then "business"
       else if matchGroups CODE_PATTERNS (pyLower q) then "code"
       else "general") := by
  cases ht : matchGroups TECHNICAL_PATTERNS (pyLower q) <;>
    cases hb : matchGroups BUSINESS_PATTERNS (pyLower q) <;>
      cases hc : matchGroups CODE_PATTERNS (pyLower q) <;>
        simp [analyze_query_intent, DOMAIN_PATTERNS, List.find?, ht, hb, hc]

/-- `word_count` is the whitespace token count of the original query. -/
theorem analyze_word_count_eq (q : String) :
    (analyze_query_intent q).query_analysis.word_count = pyWordCount q := rfl

/-- The `complexity` bucket equation of source line 94. -/
theorem analyze_complexity_eq (q : String) :
    (analyze_query_intent q).complexity =
      (if pyWordCount q ≤ 3 then "simple"
       else if pyWordCount q ≤ 8 then "medium"
       else "complex") := rfl

/-- `suggested_top_k` is the pure lookup of `complexity` (source lines 96–100). -/
theorem analyze_top_k_eq (q : String) :
    (analyze_query_intent q).suggested_top_k = topKFor (analyze_query_intent q).complexity := rfl

/-- `suggested_namespace` is the pure lookup of `domain` (source lines 102–106). -/
theorem analyze_namespace_eq (q : String) :
    (analyze_query_intent q).suggested_namespace =
      namespaceFor (analyze_query_intent q).domain := rfl

example : (analyze_query_intent "What is quantum computing").intent_type = "knowledge" := by decide
example : (analyze_query_intent "hello there").needs_retrieval = false := by decide
example : (analyze_query_intent "How do I fix this API function bug").domain = "technical" := by decide
example : (analyze_query_intent "").query_analysis.word_count = 0 := by decide
example :
    (intelligent_retrieve (.ok ()) "hi" "main-knowledge" true "").decision =
      "retrieval_triggered" := by decide
example :
    (intelligent_retrieve (.ok ()) "hello there" "main-knowledge" false "").decision =
      "no_retrieval_needed" := by decide
example :
    (contextFusion "What about it?" "Lean" (analyze_query_intent "What about it?")).2 =
      "Lean What about it?" := by decide

/-- C1: whenever the (post-context-fusion) analysis has `needs_retrieval = true`
or `force_retrieval = true`, `intelligent_retrieve` (with the module load
succeeding) returns decision `"retrieval_triggered"` carrying the
`retrieval_params` record `{index_name, namespace: analysis.suggested_namespace,
query: enhanced_query, top_k: analysis.suggested_top_k}` together with the
`enhanced_query`. -/
theorem claim_C1 (q i ctx : String) (f : Bool)
    (h : (contextFusion q ctx (analyze_query_intent q)).1.needs_retrieval = true ∨
         f = true) :
    (intelligent_retrieve (.ok ()) q i f ctx).decision = "retrieval_triggered" ∧
    (intelligent_retrieve (.ok ()) q i f ctx).retrieval_params? =
      some { index_name := i
             «namespace» := (contextFusion q ctx (analyze_query_intent q)).1.suggested_namespace
             query := (contextFusion q ctx (analyze_query_intent q)).2
             top_k := (contextFusion q ctx (analyze_query_intent q)).1.suggested_top_k } ∧
    (intelligent_retrieve (.ok ()) q i f ctx).enhanced_query? =
      some (contextFusion q ctx (analyze_query_intent q)).2 := by
  rcases h with h | h <;>
    simp [intelligent_retrieve, h, RetrieveResult.decision,
      RetrieveResult.retrieval_params?, RetrieveResult.enhanced_query?]

/-- C1 witness: `force_retrieval = true` on the purely conversational query
`"hi"` still yields decision `"retrieval_triggered"`. -/
theorem claim_C1_witness :
    (intelligent_retrieve (.ok ()) "hi" "main-knowledge" true "").decision =
      "retrieval_triggered" :=
  (claim_C1 "hi" "main-knowledge" "" true (Or.inr rfl)).1

/-- C2: with a non-empty context, a referential pronoun (as a whole word of
the lowered query) forces `needs_retrieval = true` and
`intent_type = "contextual_reference"` and sets the enhanced query to the last
200 characters of the context, a space, then the original query; without a
pronoun match, or with an empty context, the analysis stands unchanged and the
enhanced query is the original query. -/
theorem claim_C2 (q ctx : String) (a : QueryAnalysis) :
    (ctx ≠ "" → matchAlt REFERENTIAL_PRONOUNS (pyLower q) = true →
      contextFusion q ctx a =
        ({ a with needs_retrieval := true, intent_type := "contextual_reference" },
         pyTakeRight 200 ctx ++ " " ++ q)) ∧
    (ctx ≠ "" → matchAlt REFERENTIAL_PRONOUNS (pyLower q) = false →
      contextFusion q ctx a = (a, q)) ∧
    contextFusion q "" a = (a, q) := by
  refine ⟨fun hc hm => ?_, fun hc hm => ?_, ?_⟩ <;>
    simp_all [contextFusion]

/-- C2 witness: `"What about it?"` with context `"Lean is a theorem prover"`
is overridden to a contextual reference with the fused enhanced query; the
pronoun-free `"What about Lean?"` with the same context is left unchanged. -/
theorem claim_C2_witness :
    contextFusion "What about it?" "Lean is a theorem prover"
        (analyze_query_intent "What about it?") =
      ({ analyze_query_intent "What about it?" with
          needs_retrieval := true, intent_type := "contextual_reference" },
       "Lean is a theorem prover What about it?") ∧
    contextFusion "What about Lean?" "Lean is a theorem prover"
        (analyze_query_intent "What about Lean?") =
      (analyze_query_intent "What about Lean?", "What about Lean?") := by
  constructor
  · have h := (claim_C2 "What about it?" "Lean is a theorem prover"
      (analyze_query_intent "What about it?")).1 (by decide) (by decide)
    rw [h]; decide
  · exact (claim_C2 "What about Lean?" "Lean is a theorem prover"
      (analyze_query_intent "What about Lean?")).2.1 (by decide) (by decide)

/-- C3: a query matching any knowledge pattern classifies as
`needs_retrieval = true`, `intent_type = "knowledge"` (even when research,
analysis, or example patterns also match), and in general the intent type is
decided by the first match in the fixed order knowledge, research, analysis,
examples. -/
theorem claim_C3 (q : String) :
    (matchGroups KNOWLEDGE_PATTERNS (pyLower q) = true →
      (analyze_query_intent q).needs_retrieval = true ∧
      (analyze_query_intent q).intent_type = "knowledge") ∧
    (analyze_query_intent q).intent_type =
      (if matchGroups KNOWLEDGE_PATTERNS (pyLower q) then "knowledge"
       else if matchGroups RESEARCH_PATTERNS (pyLower q) then "research"
       else if matchGroups ANALYSIS_PATTERNS (pyLower q) then "analysis"
       else if matchGroups EXAMPLE_PATTERNS (pyLower q) then "examples"
       else "conversational") := by
  refine ⟨fun h => ⟨?_, ?_⟩, analyze_intent_type_eq q⟩
  · rw [analyze_needs_retrieval_eq, h]; rfl
  · rw [analyze_intent_type_eq, h]; rfl

/-- C3 witness: `"What is the best way to find machine learning papers"`
matches both a knowledge pattern (`"what is"`) and a research pattern
(`"find"`) and resolves to `intent_type = "knowledge"`. -/
theorem claim_C3_witness :
    ((analyze_query_intent "What is the best way to find machine learning papers").needs_retrieval = true ∧
     (analyze_query_intent "What is the best way to find machine learning papers").intent_type = "knowledge") ∧
    matchGroups RESEARCH_PATTERNS
      (pyLower "What is the best way to find machine learning papers") = true :=
  ⟨(claim_C3 "What is the best way to find machine learning papers").1 (by decide),
   by decide⟩

/-- C4: the domain is the first matching family in the fixed order technical,
business, code (else `"general"`), chosen from the domain patterns alone, and
`suggested_namespace` is the pure lookup of the domain (technical↦"technical",
code↦"code", business↦"business", general↦""); the spec's example query
routes to domain `"technical"`, namespace `"technical"`. -/
theorem claim_C4 (q : String) :
    (analyze_query_intent q).domain =
      (if matchGroups TECHNICAL_PATTERNS (pyLower q) then "technical"
       else if matchGroups BUSINESS_PATTERNS (pyLower q) then "business"
       else if matchGroups CODE_PATTERNS (pyLower q) then "code"
       else "general") ∧
    (analyze_query_intent q).suggested_namespace =
      namespaceFor (analyze_query_intent q).domain ∧
    namespaceFor "technical" = "technical" ∧ namespaceFor "code" = "code" ∧
    namespaceFor "business" = "business" ∧ namespaceFor "general" = "" ∧
    (analyze_query_intent "How do I fix this API function bug").domain = "technical" ∧
    (analyze_query_intent "How do I fix this API function bug").suggested_namespace =
      "technical" :=
  ⟨analyze_domain_eq q, analyze_namespace_eq q, rfl, rfl, rfl, rfl,
   by decide, by decide⟩

/-- C5: `word_count` counts the whitespace-separated tokens of the original
query, `complexity` buckets it as simple (≤ 3), medium (4–8), complex (≥ 9),
and `suggested_top_k` is the pure lookup of `complexity`
(simple↦3, medium↦5, complex↦10); the three spec boundary examples follow. -/
theorem claim_C5 (q : String) :
    (analyze_query_intent q).query_analysis.word_count = pyWordCount q ∧
    (analyze_query_intent q).complexity =
      (if pyWordCount q ≤ 3 then "simple"
       else if pyWordCount q ≤ 8 then "medium"
       else "complex") ∧
    (analyze_query_intent q).suggested_top_k =
      topKFor (analyze_query_intent q).complexity ∧
    topKFor "simple" = 3 ∧ topKFor "medium" = 5 ∧ topKFor "complex" = 10 ∧
    ((analyze_query_intent "alpha beta gamma").complexity = "simple" ∧
     (analyze_query_intent "alpha beta gamma").suggested_top_k = 3) ∧
    ((analyze_query_intent "a b c d e f g h").complexity = "medium" ∧
     (analyze_query_intent "a b c d e f g h").suggested_top_k = 5) ∧
    ((analyze_query_intent "a b c d e f g h i").complexity = "complex" ∧
     (analyze_query_intent "a b c d e f g h i").suggested_top_k = 10) :=
  ⟨analyze_word_count_eq q, analyze_complexity_eq q, analyze_top_k_eq q,
   rfl, rfl, rfl, by decide, by decide, by decide⟩

/-- C6: a query matching no intent pattern of any of the four families gets
`needs_retrieval = false` and `intent_type = "conversational"`; if moreover
`force_retrieval = false` and no referential-pronoun override applies (empty
context or no pronoun match), `intelligent_retrieve` returns the
`no_retrieval_needed` record with `success = true`, its human-readable
message, and `suggested_response = "direct_answer"`, whatever the module-load
outcome (this branch never reaches the load). -/
theorem claim_C6 (q i ctx : String) (lo : Except String Unit)
    (hk : matchGroups KNOWLEDGE_PATTERNS (pyLower q) = false)
    (hr : matchGroups RESEARCH_PATTERNS (pyLower q) = false)
    (ha : matchGroups ANALYSIS_PATTERNS (pyLower q) = false)
    (he : matchGroups EXAMPLE_PATTERNS (pyLower q) = false) :
    ((analyze_query_intent q).needs_retrieval = false ∧
     (analyze_query_intent q).intent_type = "conversational") ∧
    (ctx = "" ∨ matchAlt REFERENTIAL_PRONOUNS (pyLower q) = false →
      intelligent_retrieve lo q i false ctx =
        .noRetrievalNeeded (analyze_query_intent q)
          "Query detected as conversational - no retrieval needed" "direct_answer" ∧
      (intelligent_retrieve lo q i false ctx).success = true ∧
      (intelligent_retrieve lo q i false ctx).decision = "no_retrieval_needed") := by
  have hneeds : (analyze_query_intent q).needs_retrieval = false := by
    simp [analyze_needs_retrieval_eq, hk, hr, ha, he]
  have hintent : (analyze_query_intent q).intent_type = "conversational" := by
    simp [analyze_intent_type_eq, hk, hr, ha, he]
  refine ⟨⟨hneeds, hintent⟩, fun hctx => ?_⟩
  rcases hctx with hc | hm
  · subst hc
    simp [intelligent_retrieve, contextFusion, hneeds,
      RetrieveResult.success, RetrieveResult.decision]
  · simp [intelligent_retrieve, contextFusion, hm, hneeds,
      RetrieveResult.success, RetrieveResult.decision]

/-- C6 witness: `"hello there"` with empty context and `force_retrieval = false`
is answered directly without retrieval. -/
theorem claim_C6_witness :
    ((analyze_query_intent "hello there").needs_retrieval = false ∧
     (analyze_query_intent "hello there").intent_type = "conversational") ∧
    (intelligent_retrieve (.ok ()) "hello there" "main-knowledge" false "" =
        .noRetrievalNeeded (analyze_query_intent "hello there")
          "Query detected as conversational - no retrieval needed" "direct_answer" ∧
     (intelligent_retrieve (.ok ()) "hello there" "main-knowledge" false "").success = true ∧
     (intelligent_retrieve (.ok ()) "hello there" "main-knowledge" false "").decision =
       "no_retrieval_needed") :=
  ⟨(claim_C6 "hello there" "main-knowledge" "" (.ok ())
      (by decide) (by decide) (by decide) (by decide)).1,
   (claim_C6 "hello there" "main-knowledge" "" (.ok ())
      (by decide) (by decide) (by decide) (by decide)).2 (Or.inl rfl)⟩

/-- C7: `analyze_query_intent` is a total function of the query string — the
embedding is a total Lean function and every output is well formed: the
enumerated fields stay in their enumerations and `suggested_top_k` in
`{3, 5, 10}` — and on the empty query it returns `word_count = 0`,
`complexity = "simple"`, `intent_type = "conversational"`. -/
theorem claim_C7 (q : String) :
    (analyze_query_intent q).intent_type ∈
      ["conversational", "knowledge", "research", "analysis", "examples"] ∧
    (analyze_query_intent q).domain ∈ ["technical", "business", "code", "general"] ∧
    (analyze_query_intent q).complexity ∈ ["simple", "medium", "complex"] ∧
    (analyze_query_intent q).suggested_top_k ∈ [3, 5, 10] ∧
    (analyze_query_intent q).suggested_namespace ∈ ["technical", "code", "business", ""] ∧
    ((analyze_query_intent "").query_analysis.word_count = 0 ∧
     (analyze_query_intent "").complexity = "simple" ∧
     (analyze_query_intent "").intent_type = "conversational") := by
  refine ⟨?_, ?_, ?_, ?_, ?_, by decide, by decide, by decide⟩
  · rw [analyze_intent_type_eq]; split_ifs <;> simp
  · rw [analyze_domain_eq]; split_ifs <;> simp
  · rw [analyze_complexity_eq]; split_ifs <;> simp
  · rw [analyze_top_k_eq, analyze_complexity_eq]; split_ifs <;> decide
  · rw [analyze_namespace_eq, analyze_domain_eq]; split_ifs <;> decide

/-- C8: an exception raised inside the body — for string-typed arguments the
only exception site is the dynamic module load of the retrieval branch,
modelled by `load_outcome = .error e` — is normalized by the outer
`try/except` into the structured record with `success = false`, the rendered
error message, and `decision = "error"`; the embedding returns a
`RetrieveResult` on every input, so no exception propagates. -/
theorem claim_C8 (q i ctx e : String) (f : Bool) :
    ((contextFusion q ctx (analyze_query_intent q)).1.needs_retrieval = true ∨
        f = true →
      intelligent_retrieve (.error e) q i f ctx =
        .error ("Intelligent retrieval failed: " ++ e)) ∧
    (∀ m : String, (RetrieveResult.error m).success = false ∧
      (RetrieveResult.error m).decision = "error") := by
  refine ⟨fun h => ?_, fun m => ⟨rfl, rfl⟩⟩
  rcases h with h | h <;> simp [intelligent_retrieve, h]

/-- C8 witness: a forced-retrieval call whose module load raises
`FileNotFoundError` returns the structured error record. -/
theorem claim_C8_witness :
    intelligent_retrieve (.error "FileNotFoundError") "hi" "main-knowledge" true "" =
      .error ("Intelligent retrieval failed: " ++ "FileNotFoundError") ∧
    (intelligent_retrieve (.error "FileNotFoundError") "hi" "main-knowledge" true "").success =
      false :=
  ⟨(claim_C8 "hi" "main-knowledge" "" "FileNotFoundError" true).1 (Or.inr rfl),
   by rw [(claim_C8 "hi" "main-knowledge" "" "FileNotFoundError" true).1 (Or.inr rfl)];
      rfl⟩

/-- C9: `auto_rag_workflow` never reads `conversation_context` or
`user_preferences` — two calls differing only in them are identical — and on
its retrieval-triggered branch the emitted `parameters.query` is the raw
query, never a context-enhanced one. -/
theorem claim_C9 (q i c c' : String) (p p' : Option (List (String × String))) :
    auto_rag_workflow q i c p = auto_rag_workflow q i c' p' ∧
    ((analyze_query_intent q).needs_retrieval = true →
      auto_rag_workflow q i c p =
        .retrievalTriggered
          { intent_detected := (analyze_query_intent q).intent_type
            domain := (analyze_query_intent q).domain
            should_call_pinecone_retrieve := true
            parameters :=
              { index_name := i
                «namespace» := (analyze_query_intent q).suggested_namespace
                query := q
                top_k := (analyze_query_intent q).suggested_top_k } }
          ("Auto-triggered " ++ (analyze_query_intent q).intent_type ++
            " retrieval for domain: " ++ (analyze_query_intent q).domain)
          ["1. Call pinecone_retrieve with suggested parameters",
           "2. Process and rank results",
           "3. Generate contextual response",
           "4. Provide source citations"]) := by
  refine ⟨rfl, fun h => ?_⟩
  simp [auto_rag_workflow, h]

/-- C9 witness: changing only the context and the preferences leaves the
output unchanged, and the emitted query is the raw one. -/
theorem claim_C9_witness :
    auto_rag_workflow "what is lean" "main-knowledge" "earlier chat about provers" none =
      auto_rag_workflow "what is lean" "main-knowledge" "" (some [("style", "terse")]) ∧
    (auto_rag_workflow "what is lean" "main-knowledge" "earlier chat about provers"
        none).parameters? =
      some { index_name := "main-knowledge", «namespace» := "",
             query := "what is lean", top_k := 3 } := by
  refine ⟨(claim_C9 "what is lean" "main-knowledge" "earlier chat about provers" ""
      none (some [("style", "terse")])).1, ?_⟩
  rw [(claim_C9 "what is lean" "main-knowledge" "earlier chat about provers" ""
      none (some [("style", "terse")])).2 (by decide)]
  decide

/-- C10: `intelligent_retrieve` is deterministic — its embedding is a pure
function of the argument tuple (and of the module-load outcome `lo`, the only
environment effect of the body): two calls with equal arguments return equal
results; no other state enters the computation. -/
theorem claim_C10 (lo : Except String Unit) (q i ctx q' i' ctx' : String)
    (f f' : Bool) (hq : q = q') (hi : i = i') (hf : f = f') (hc : ctx = ctx') :
    intelligent_retrieve lo q i f ctx = intelligent_retrieve lo q' i' f' ctx' := by
  subst hq; subst hi; subst hf; subst hc; rfl

/-- C10 witness: a repeated identical call returns the identical record. -/
theorem claim_C10_witness :
    intelligent_retrieve (.ok ()) "what is lean" "main-knowledge" false "" =
      intelligent_retrieve (.ok ()) "what is lean" "main-knowledge" false "" :=
  claim_C10 (.ok ()) "what is lean" "main-knowledge" "" "what is lean"
    "main-knowledge" "" false false rfl rfl rfl rfl
